import Mathlib

set_option maxRecDepth 20000

/-!
Verification development for the ai-command-generator repository.

The mapping core (`command_mapper.py`) and execution core (`executor.py`) are
embedded shallowly: Python regular-expression search is modelled by a
backtracking matcher over an abstract-syntax tree, `difflib.SequenceMatcher`
similarity is modelled as an exact fraction (Python computes the same value
in IEEE doubles; all comparisons arising here are far from rounding ties),
and the subprocess interaction of the executor is parametrised by an
explicit `SpawnOutcome` describing how the spawned process ended.
-/

namespace AICmd

/-- The whitespace characters recognised by Python `str.split`, `str.strip`
and the `\s` regex class (ASCII range, which covers all inputs here). -/
def isPySpace (c : Char) : Bool :=
  c = ' ' || c = '\t' || c = '\n' || c = '\r' || c = '\x0b' || c = '\x0c'

/-- ASCII lower-casing, as applied by `str.lower` to the inputs here. -/
def lowerChar (c : Char) : Char :=
  if 'A' ≤ c && c ≤ 'Z' then Char.ofNat (c.toNat + 32) else c

/-- Python `str.strip()` on a character list. -/
def pyStripL (l : List Char) : List Char :=
  ((l.dropWhile isPySpace).reverse.dropWhile isPySpace).reverse

def pySplitGo : List Char → List Char → List (List Char)
  | [], cur => if cur.isEmpty then [] else [cur.reverse]
  | c :: rest, cur =>
    if isPySpace c then
      if cur.isEmpty then pySplitGo rest [] else cur.reverse :: pySplitGo rest []
    else pySplitGo rest (c :: cur)

/-- Python `str.split()` (split on whitespace runs, dropping empty parts). -/
def pySplitL (l : List Char) : List (List Char) := pySplitGo l []

/-- `" ".join(...)` on character lists. -/
def joinSpace : List (List Char) → List Char
  | [] => []
  | [w] => w
  | w :: ws => w ++ ' ' :: joinSpace ws

/-- Python substring containment (`needle in hay`). -/
def containsSub (needle : List Char) : List Char → Bool
  | [] => needle.isEmpty
  | c :: t => needle.isPrefixOf (c :: t) || containsSub needle t

/-! ### difflib.SequenceMatcher similarity (CommandMapper._string_similarity) -/

/-- Length of the longest common prefix of two character lists. -/
def lcpLen : List Char → List Char → Nat
  | a :: as, b :: bs => if a = b then lcpLen as bs + 1 else 0
  | _, _ => 0

/-- Inner loop of `find_longest_match`: scan the start positions `js` in `b`
for a fixed start `i` in `a`, keeping the first strictly-longest block. -/
def bbJ (a b : List Char) (i : Nat) : List Nat → Nat × Nat × Nat → Nat × Nat × Nat
  | [], best => best
  | j :: js, best =>
    match Nat.blt best.2.2 (lcpLen (a.drop i) (b.drop j)) with
    | true => bbJ a b i js (i, j, lcpLen (a.drop i) (b.drop j))
    | false => bbJ a b i js best

/-- Outer loop of `find_longest_match` over start positions in `a`. -/
def bbI (a b : List Char) : List Nat → Nat × Nat × Nat → Nat × Nat × Nat
  | [], best => best
  | i :: is, best =>
    match bbJ a b i (List.range b.length) best with
    | (bi, bj, bk) => bbI a b is (bi, bj, bk)

/-- `SequenceMatcher.find_longest_match` without junk handling (no junk ever
arises for the short lowercase tokens compared here): the longest matching
block, earliest start in `a`, then earliest start in `b`. -/
def bestBlock (a b : List Char) : Nat × Nat × Nat :=
  bbI a b (List.range a.length) (0, 0, 0)

/-- Total size of all matching blocks (the `M` of `SequenceMatcher.ratio`),
computed by the recursive divide-and-conquer of `get_matching_blocks`.
The fuel bounds the recursion depth; every recursive call strictly reduces
the combined length, so `a.length + b.length` is always sufficient. -/
def matchTotal : Nat → List Char → List Char → Nat
  | 0, _, _ => 0
  | Nat.succ f, a, b =>
    match bestBlock a b with
    | (i, j, k) =>
      if k = 0 then 0
      else
        matchTotal f (a.take i) (b.take j) + k +
          matchTotal f (a.drop (i + k)) (b.drop (j + k))

/-- `SequenceMatcher(None, a, b).ratio()`, i.e. `2*M / (len(a)+len(b))`,
represented exactly as an unreduced numerator/denominator pair (Python
computes the same value in IEEE doubles; every comparison arising here is
far from a rounding tie, so exact comparison is faithful). An empty pair of
sequences has ratio 1. -/
def string_similarity (a b : List Char) : Nat × Nat :=
  if a.length + b.length = 0 then (1, 1)
  else (2 * matchTotal (a.length + b.length) a b, a.length + b.length)

/-- Strict comparison of two exact nonnegative fractions with positive
denominators, by cross-multiplication. -/
def fracGt (x y : Nat × Nat) : Bool := x.1 * y.2 > y.1 * x.2

/-! ### The spelling-correction dictionary (CommandMapper._correct_spelling)

The Python source lists the key "restart" twice with the same value; a dict
literal keeps the first position and the (identical) last value, so the
embedded list carries a single "restart" entry at its first position. -/

def command_keywords : List (String × List String) := [
  ("redis", ["redis", "reddis", "reds"]),
  ("sentinel", ["sentinel", "snetinel", "sental", "snetal", "snatel"]),
  ("server", ["server", "srever", "srvr"]),
  ("start", ["start", "sttart", "sart", "satrt"]),
  ("stop", ["stop", "sttop", "stp"]),
  ("restart", ["restart", "resttart", "restrt"]),
  ("check", ["check", "chek", "chck"]),
  ("status", ["status", "sttus", "staus"]),
  ("memory", ["memory", "memry", "memmory"]),
  ("ram", ["ram", "rm"]),
  ("cpu", ["cpu", "cuppu"]),
  ("disk", ["disk", "dsk"]),
  ("network", ["network", "netwrok", "netwrk"]),
  ("wifi", ["wifi", "wifi", "wifi"]),
  ("port", ["port", "prt"]),
  ("process", ["process", "proces", "prcess"]),
  ("file", ["file", "fil"]),
  ("folder", ["folder", "flder", "foler"]),
  ("copy", ["copy", "cpy", "coppy"]),
  ("move", ["move", "mov", "mve"]),
  ("delete", ["delete", "delte", "dlete"]),
  ("rename", ["rename", "renme", "renam"]),
  ("create", ["create", "creat", "crate"]),
  ("open", ["open", "opn", "ope"]),
  ("search", ["search", "serch", "seach"]),
  ("google", ["google", "googl", "gogle"]),
  ("youtube", ["youtube", "youtub", "yutube"]),
  ("gmail", ["gmail", "gmal", "gmil"]),
  ("facebook", ["facebook", "facebok", "fcebook"]),
  ("twitter", ["twitter", "twtter", "twiter"]),
  ("instagram", ["instagram", "instgram", "instagrm"]),
  ("spotify", ["spotify", "spotfy", "spotif"]),
  ("reddit", ["reddit", "redit", "redd"]),
  ("whatsapp", ["whatsapp", "whatsap", "whatspp"]),
  ("shutdown", ["shutdown", "shutdwn", "shutdn"]),
  ("clear", ["clear", "clr", "cler"]),
  ("system", ["system", "systm", "sysem"]),
  ("info", ["info", "inf", "infor"]),
  ("usage", ["usage", "usge", "usag"]),
  ("connect", ["connect", "conect", "connct"]),
  ("disconnect", ["disconnect", "disconect", "disconnct"]),
  ("list", ["list", "lst", "lits"]),
  ("available", ["available", "availble", "availabl"]),
  ("networks", ["networks", "netwrks", "netwks"]),
  ("calculator", ["calculator", "calc", "calcltr"]),
  ("notepad", ["notepad", "notepd", "notepd"]),
  ("chrome", ["chrome", "chrm", "chome"]),
  ("firefox", ["firefox", "firef", "firefx"]),
  ("safari", ["safari", "safri", "safr"]),
  ("vscode", ["vscode", "vscd", "vsc"]),
  ("weather", ["weather", "wether", "weathr"]),
  ("time", ["time", "tim", "tme"]),
  ("date", ["date", "dat", "dte"])
]

/-- A token already present verbatim as a canonical keyword. -/
def isCanonicalTok (w : List Char) : Bool :=
  command_keywords.any (fun kv => kv.1.data == w)

/-- The comparison candidates generated for token `w` against one canonical
keyword `km` and its variation list (`all_variations = [correct_word] +
variations` in the source), in iteration order; the length-3 guards of the
source are applied here. -/
def varCands (w : List Char) (km : List Char) : List String → List ((Nat × Nat) × List Char)
  | [] => []
  | v :: vs =>
    if 3 ≤ w.length ∧ 3 ≤ v.data.length then
      (string_similarity w v.data, km) :: varCands w km vs
    else varCands w km vs

/-- All comparison candidates for token `w`, in the dictionary's iteration
order. -/
def kwCands (w : List Char) : List (String × List String) → List ((Nat × Nat) × List Char)
  | [] => []
  | kv :: rest => varCands w kv.1.data (kv.1 :: kv.2) ++ kwCands w rest

/-- The best-match selection loop of `_correct_spelling`: a candidate
replaces the current best only when its similarity strictly exceeds the
current best ratio (initially the 0.8 = 4/5 threshold). -/
def bestCand : List ((Nat × Nat) × List Char) → Nat × Nat → Option (List Char) → Option (List Char)
  | [], _, bm => bm
  | c :: rest, br, bm =>
    match fracGt c.1 br with
    | true => bestCand rest c.1 (some c.2)
    | false => bestCand rest br bm

/-- One token of `CommandMapper._correct_spelling`: keep canonical keywords,
otherwise take the best-scoring canonical keyword over the keyword itself
and all its listed variations (both of length at least 3), accepting it only
when its similarity strictly exceeds the 0.8 threshold. -/
def correct_word (w : List Char) : List Char :=
  if isCanonicalTok w then w
  else
    match bestCand (kwCands w command_keywords) (4, 5) none with
    | some m => m
    | none => w

/-- `CommandMapper._correct_spelling`: split on whitespace, correct each
token, rejoin with single spaces, and report no correction when the result
equals the input. -/
def correct_spelling (s : String) : Option String :=
  if joinSpace ((pySplitL s.data).map correct_word) = s.data then none
  else some ⟨joinSpace ((pySplitL s.data).map correct_word)⟩

/-! ### A backtracking regular-expression matcher

Models Python `re.search(pattern, input, re.IGNORECASE)` for the pattern
fragments used by the repository: literals, `.` , character classes,
alternation, greedy `*` / `+` / `?` / `{lo,hi}`, and numbered capture
groups. Alternatives are explored exactly in Python's backtracking order
(alternation left to right, greedy quantifiers longest first, earliest
start position first), and the first full match wins. -/

inductive RE where
  | eps : RE
  | ch : Char → RE
  | cls : (Char → Bool) → RE
  | seq : RE → RE → RE
  | alt : RE → RE → RE
  | star : RE → RE
  | grp : Nat → RE → RE

/-- Captures: group number paired with the captured characters; an earlier
entry shadows a later one for the same group. -/
abbrev Caps := List (Nat × List Char)

def sizeRE : RE → Nat
  | .eps => 1
  | .ch _ => 1
  | .cls _ => 1
  | .seq a b => sizeRE a + sizeRE b + 1
  | .alt a b => sizeRE a + sizeRE b + 1
  | .star a => sizeRE a + 1
  | .grp _ a => sizeRE a + 1

/-- All ways the pattern can match a prefix of `s`, as (remaining suffix,
captures) pairs in backtracking preference order. Literal characters are
compared case-insensitively (re.IGNORECASE; all pattern literals are ASCII).
A starred body must consume at least one character per iteration, as in
Python's regress-free repetition (every starred body in this table consumes
one character anyway). The fuel only bounds the recursion depth and
`reFuel` below always suffices. -/
def mrun : Nat → RE → List Char → List (List Char × Caps)
  | 0, _, _ => []
  | Nat.succ f, r, s =>
    match r with
    | .eps => [(s, [])]
    | .ch c =>
      match s with
      | [] => []
      | d :: rest => if lowerChar d = lowerChar c then [(rest, [])] else []
    | .cls p =>
      match s with
      | [] => []
      | d :: rest => if p d then [(rest, [])] else []
    | .seq a b =>
      (mrun f a s).flatMap fun pr =>
        (mrun f b pr.1).map fun qr => (qr.1, qr.2 ++ pr.2)
    | .alt a b => mrun f a s ++ mrun f b s
    | .star a =>
      ((mrun f a s).flatMap fun pr =>
        if pr.1.length < s.length then
          (mrun f (.star a) pr.1).map fun qr => (qr.1, qr.2 ++ pr.2)
        else []) ++ [(s, [])]
    | .grp n a =>
      (mrun f a s).map fun pr => (pr.1, (n, s.take (s.length - pr.1.length)) :: pr.2)

def reFuel (r : RE) (len : Nat) : Nat := (sizeRE r + 2) * (len + 2)

/-- Attempt a match anchored at the start of `s` (Python `re.match` at one
position): the preferred (first) result. -/
def tryAt (r : RE) (s : List Char) : Option Caps :=
  match mrun (reFuel r s.length) r s with
  | [] => none
  | pr :: _ => some pr.2

/-- `re.search`: try successive start positions, leftmost match first. -/
def research (r : RE) : List Char → Option Caps
  | [] => tryAt r []
  | c :: rest =>
    match tryAt r (c :: rest) with
    | some caps => some caps
    | none => research r rest

/-- `m.group(n)` for a group that participated in the match (every group
referenced by a command template here always participates). -/
def getG (caps : Caps) (n : Nat) : String :=
  match caps.find? (fun p => p.1 == n) with
  | some p => ⟨p.2⟩
  | none => ""

/-! Pattern-building helpers. -/

def rseq (l : List RE) : RE := l.foldr RE.seq RE.eps

/-- A literal pattern fragment (no metacharacters). -/
def litP (s : String) : RE := rseq (s.data.map RE.ch)

/-- `.` (any character but newline). -/
def anyP : RE := RE.cls fun c => !(c = '\n')

/-- `.*` -/
def dotStar : RE := RE.star anyP

/-- `(.+)`-style one-or-more of any character. -/
def anyPlus : RE := RE.seq anyP (RE.star anyP)

/-- `\s` -/
def wsP : RE := RE.cls isPySpace

/-- `\s+` -/
def wsPlus : RE := RE.seq wsP (RE.star wsP)

/-- `\s*` -/
def wsStar : RE := RE.star wsP

/-- `\S` -/
def nonWs : RE := RE.cls fun c => !(isPySpace c)

/-- `\S+` -/
def nonWsPlus : RE := RE.seq nonWs (RE.star nonWs)

/-- `\d` -/
def digitP : RE := RE.cls fun c => '0' ≤ c && c ≤ '9'

/-- `[a-zA-Z\s]` -/
def alphaWs : RE := RE.cls fun c => ('a' ≤ c && c ≤ 'z') || ('A' ≤ c && c ≤ 'Z') || isPySpace c

/-- `([a-zA-Z\s]+)`-style one-or-more. -/
def alphaWsPlus : RE := RE.seq alphaWs (RE.star alphaWs)

/-- Greedy `?`. -/
def optR (r : RE) : RE := RE.alt r RE.eps

/-- Greedy `{0,h}` repetition (prefer one more copy). -/
def upToR (r : RE) : Nat → RE
  | 0 => RE.eps
  | Nat.succ h => RE.alt (RE.seq r (upToR r h)) RE.eps

/-- `lo` mandatory copies of `r` in front of `tail`. -/
def repLo (r : RE) : Nat → RE → RE
  | 0, tail => tail
  | Nat.succ l, tail => RE.seq r (repLo r l tail)

/-- Greedy `{lo,hi}` bounded repetition. -/
def repR (r : RE) (lo hi : Nat) : RE := repLo r lo (upToR r (hi - lo))

/-! ### The fallback rule table (CommandMapper._load_fallback_patterns)

Each rule pairs the regex of the source dict with its per-platform values:
literal command strings, or templates substituting captured groups (the
lambda-valued entries of the source). The list order is the declaration
order of the Python dict literal, which `dict` preserves. -/

/-- A per-platform table value: a literal command or a capture template. -/
inductive CmdSpec where
  | lit : String → CmdSpec
  | tmpl : (Caps → String) → CmdSpec

/-- One entry of the fallback table: pattern plus the optional "darwin",
"windows", "linux" and "all" values of the source dict. -/
structure Rule where
  pat : RE
  dar : Option CmdSpec
  win : Option CmdSpec
  lin : Option CmdSpec
  allp : Option CmdSpec

/-- Rule with darwin/windows/linux values (no "all"). -/
def mk3 (p : RE) (d w l : CmdSpec) : Rule := ⟨p, some d, some w, some l, none⟩

/-- Rule with only an "all" value. -/
def mkA (p : RE) (c : CmdSpec) : Rule := ⟨p, none, none, none, some c⟩

/-- Python `s.replace(" ", r)`. -/
def replSpace (s r : String) : String :=
  ⟨s.data.flatMap fun c => if c = ' ' then r.data else [c]⟩

def fallback_patterns : List Rule := [
  -- r"list.*port.*(\d{4,5})"
  mkA (rseq [litP "list", dotStar, litP "port", dotStar, RE.grp 1 (repR digitP 4 5)])
    (.tmpl fun c => "lsof -i tcp:" ++ getG c 1),
  -- r"kill.*port.*(\d{4,5})"
  mkA (rseq [litP "kill", dotStar, litP "port", dotStar, RE.grp 1 (repR digitP 4 5)])
    (.tmpl fun c => "kill -9 $(lsof -t -i tcp:" ++ getG c 1 ++ ")"),
  -- r"find.*port.*(\d{4,5})"
  mkA (rseq [litP "find", dotStar, litP "port", dotStar, RE.grp 1 (repR digitP 4 5)])
    (.tmpl fun c => "lsof -i tcp:" ++ getG c 1),
  -- r"copy\s+file\s+(\S+)\s+to\s+(\S+)"
  mk3 (rseq [litP "copy", wsPlus, litP "file", wsPlus, RE.grp 1 nonWsPlus, wsPlus,
      litP "to", wsPlus, RE.grp 2 nonWsPlus])
    (.tmpl fun c => "cp " ++ getG c 1 ++ " " ++ getG c 2)
    (.tmpl fun c => "copy " ++ getG c 1 ++ " " ++ getG c 2)
    (.tmpl fun c => "cp " ++ getG c 1 ++ " " ++ getG c 2),
  -- r"move\s+file\s+(\S+)\s+to\s+(\S+)"
  mk3 (rseq [litP "move", wsPlus, litP "file", wsPlus, RE.grp 1 nonWsPlus, wsPlus,
      litP "to", wsPlus, RE.grp 2 nonWsPlus])
    (.tmpl fun c => "mv " ++ getG c 1 ++ " " ++ getG c 2)
    (.tmpl fun c => "move " ++ getG c 1 ++ " " ++ getG c 2)
    (.tmpl fun c => "mv " ++ getG c 1 ++ " " ++ getG c 2),
  -- r"rename\s+(\S+)\s+to\s+(\S+)"
  mk3 (rseq [litP "rename", wsPlus, RE.grp 1 nonWsPlus, wsPlus, litP "to", wsPlus,
      RE.grp 2 nonWsPlus])
    (.tmpl fun c => "mv " ++ getG c 1 ++ " " ++ getG c 2)
    (.tmpl fun c => "rename " ++ getG c 1 ++ " " ++ getG c 2)
    (.tmpl fun c => "mv " ++ getG c 1 ++ " " ++ getG c 2),
  -- r"(create|make)\s+(a\s+)?(new\s+)?folder\s+called\s+(\S+)"
  mk3 (rseq [RE.grp 1 (RE.alt (litP "create") (litP "make")), wsPlus,
      optR (RE.grp 2 (rseq [litP "a", wsPlus])), optR (RE.grp 3 (rseq [litP "new", wsPlus])),
      litP "folder", wsPlus, litP "called", wsPlus, RE.grp 4 nonWsPlus])
    (.tmpl fun c => "mkdir " ++ getG c 4)
    (.tmpl fun c => "mkdir " ++ getG c 4)
    (.tmpl fun c => "mkdir " ++ getG c 4),
  -- r"(remove|delete)\s+folder\s+(\S+)"
  mk3 (rseq [RE.grp 1 (RE.alt (litP "remove") (litP "delete")), wsPlus, litP "folder",
      wsPlus, RE.grp 2 nonWsPlus])
    (.tmpl fun c => "rmdir " ++ getG c 2)
    (.tmpl fun c => "rmdir " ++ getG c 2)
    (.tmpl fun c => "rmdir " ++ getG c 2),
  -- r"open.*chrome"
  mk3 (rseq [litP "open", dotStar, litP "chrome"])
    (.lit "open -a \"Google Chrome\"") (.lit "start chrome") (.lit "google-chrome"),
  -- r"open.*firefox"
  mk3 (rseq [litP "open", dotStar, litP "firefox"])
    (.lit "open -a \"Firefox\"") (.lit "start firefox") (.lit "firefox"),
  -- r"open.*vscode"
  mk3 (rseq [litP "open", dotStar, litP "vscode"])
    (.lit "open -a \"Visual Studio Code\"") (.lit "code") (.lit "code"),
  -- r"open.*safari"
  mk3 (rseq [litP "open", dotStar, litP "safari"])
    (.lit "open -a \"Safari\"") (.lit "start safari") (.lit "safari"),
  -- r"start\s+notepad"
  mk3 (rseq [litP "start", wsPlus, litP "notepad"])
    (.lit "open -a TextEdit") (.lit "notepad") (.lit "gedit"),
  -- r"open\s+calculator"
  mk3 (rseq [litP "open", wsPlus, litP "calculator"])
    (.lit "open -a Calculator") (.lit "calc") (.lit "gnome-calculator"),
  -- r"(open|launch|go\s+to)\s+youtube"
  mk3 (rseq [RE.grp 1 (RE.alt (litP "open") (RE.alt (litP "launch")
      (rseq [litP "go", wsPlus, litP "to"]))), wsPlus, litP "youtube"])
    (.lit "open https://www.youtube.com") (.lit "start https://www.youtube.com")
    (.lit "xdg-open https://www.youtube.com"),
  -- r"search\s+youtube\s+for\s+(.+)"
  mk3 (rseq [litP "search", wsPlus, litP "youtube", wsPlus, litP "for", wsPlus,
      RE.grp 1 anyPlus])
    (.tmpl fun c => "open https://www.youtube.com/results?search_query=" ++ replSpace (getG c 1) "+")
    (.tmpl fun c => "start https://www.youtube.com/results?search_query=" ++ replSpace (getG c 1) "+")
    (.tmpl fun c => "xdg-open https://www.youtube.com/results?search_query=" ++ replSpace (getG c 1) "+"),
  -- r"(open|launch|check)\s+gmail"
  mk3 (rseq [RE.grp 1 (RE.alt (litP "open") (RE.alt (litP "launch") (litP "check"))),
      wsPlus, litP "gmail"])
    (.lit "open https://mail.google.com") (.lit "start https://mail.google.com")
    (.lit "xdg-open https://mail.google.com"),
  -- r"(open|launch|go\s+to)\s+facebook"
  mk3 (rseq [RE.grp 1 (RE.alt (litP "open") (RE.alt (litP "launch")
      (rseq [litP "go", wsPlus, litP "to"]))), wsPlus, litP "facebook"])
    (.lit "open https://www.facebook.com") (.lit "start https://www.facebook.com")
    (.lit "xdg-open https://www.facebook.com"),
  -- r"(open|launch|go\s+to)\s+instagram"
  mk3 (rseq [RE.grp 1 (RE.alt (litP "open") (RE.alt (litP "launch")
      (rseq [litP "go", wsPlus, litP "to"]))), wsPlus, litP "instagram"])
    (.lit "open https://www.instagram.com") (.lit "start https://www.instagram.com")
    (.lit "xdg-open https://www.instagram.com"),
  -- r"(open|launch|go\s+to)\s+twitter"
  mk3 (rseq [RE.grp 1 (RE.alt (litP "open") (RE.alt (litP "launch")
      (rseq [litP "go", wsPlus, litP "to"]))), wsPlus, litP "twitter"])
    (.lit "open https://twitter.com") (.lit "start https://twitter.com")
    (.lit "xdg-open https://twitter.com"),
  -- r"(tweet|send\s+a\s+tweet)\s+['](.+)[']" (the source's adjacent string
  -- literals concatenate, so each bracket class holds a single quote char)
  mk3 (rseq [RE.grp 1 (RE.alt (litP "tweet")
      (rseq [litP "send", wsPlus, litP "a", wsPlus, litP "tweet"])), wsPlus,
      RE.ch '\'', RE.grp 2 anyPlus, RE.ch '\''])
    (.tmpl fun c => "open https://twitter.com/intent/tweet?text=" ++ replSpace (getG c 2) "+")
    (.tmpl fun c => "start https://twitter.com/intent/tweet?text=" ++ replSpace (getG c 2) "+")
    (.tmpl fun c => "xdg-open https://twitter.com/intent/tweet?text=" ++ replSpace (getG c 2) "+"),
  -- r"(open|launch|play)\s+spotify"
  mk3 (rseq [RE.grp 1 (RE.alt (litP "open") (RE.alt (litP "launch") (litP "play"))),
      wsPlus, litP "spotify"])
    (.lit "open https://open.spotify.com") (.lit "start https://open.spotify.com")
    (.lit "xdg-open https://open.spotify.com"),
  -- r"search\s+spotify\s+for\s+(.+)"
  mk3 (rseq [litP "search", wsPlus, litP "spotify", wsPlus, litP "for", wsPlus,
      RE.grp 1 anyPlus])
    (.tmpl fun c => "open https://open.spotify.com/search/" ++ replSpace (getG c 1) "%20")
    (.tmpl fun c => "start https://open.spotify.com/search/" ++ replSpace (getG c 1) "%20")
    (.tmpl fun c => "xdg-open https://open.spotify.com/search/" ++ replSpace (getG c 1) "%20"),
  -- r"(open|launch|go\s+to)\s+reddit"
  mk3 (rseq [RE.grp 1 (RE.alt (litP "open") (RE.alt (litP "launch")
      (rseq [litP "go", wsPlus, litP "to"]))), wsPlus, litP "reddit"])
    (.lit "open https://www.reddit.com") (.lit "start https://www.reddit.com")
    (.lit "xdg-open https://www.reddit.com"),
  -- r"search\s+reddit\s+for\s+(.+)"
  mk3 (rseq [litP "search", wsPlus, litP "reddit", wsPlus, litP "for", wsPlus,
      RE.grp 1 anyPlus])
    (.tmpl fun c => "open https://www.reddit.com/search/?q=" ++ replSpace (getG c 1) "+")
    (.tmpl fun c => "start https://www.reddit.com/search/?q=" ++ replSpace (getG c 1) "+")
    (.tmpl fun c => "xdg-open https://www.reddit.com/search/?q=" ++ replSpace (getG c 1) "+"),
  -- r"(open|launch)\s+whatsapp\s+web"
  mk3 (rseq [RE.grp 1 (RE.alt (litP "open") (litP "launch")), wsPlus, litP "whatsapp",
      wsPlus, litP "web"])
    (.lit "open https://web.whatsapp.com") (.lit "start https://web.whatsapp.com")
    (.lit "xdg-open https://web.whatsapp.com"),
  -- r"search.*weather.*in\s+([a-zA-Z\s]+)"
  mk3 (rseq [litP "search", dotStar, litP "weather", dotStar, litP "in", wsPlus,
      RE.grp 1 alphaWsPlus])
    (.tmpl fun c => "open https://www.google.com/search?q=weather+in+" ++ replSpace (getG c 1) "+")
    (.tmpl fun c => "start https://www.google.com/search?q=weather+in+" ++ replSpace (getG c 1) "+")
    (.tmpl fun c => "xdg-open https://www.google.com/search?q=weather+in+" ++ replSpace (getG c 1) "+"),
  -- r"search.*for\s+([a-zA-Z\s]+)"
  mk3 (rseq [litP "search", dotStar, litP "for", wsPlus, RE.grp 1 alphaWsPlus])
    (.tmpl fun c => "open https://www.google.com/search?q=" ++ replSpace (getG c 1) "+")
    (.tmpl fun c => "start https://www.google.com/search?q=" ++ replSpace (getG c 1) "+")
    (.tmpl fun c => "xdg-open https://www.google.com/search?q=" ++ replSpace (getG c 1) "+"),
  -- r"google\s+([a-zA-Z\s]+)"
  mk3 (rseq [litP "google", wsPlus, RE.grp 1 alphaWsPlus])
    (.tmpl fun c => "open https://www.google.com/search?q=" ++ replSpace (getG c 1) "+")
    (.tmpl fun c => "start https://www.google.com/search?q=" ++ replSpace (getG c 1) "+")
    (.tmpl fun c => "xdg-open https://www.google.com/search?q=" ++ replSpace (getG c 1) "+"),
  -- r"shutdown\s+(my\s+)?computer"
  mk3 (rseq [litP "shutdown", wsPlus, optR (RE.grp 1 (rseq [litP "my", wsPlus])),
      litP "computer"])
    (.lit "sudo shutdown -h now") (.lit "shutdown /s /t 0") (.lit "sudo shutdown -h now"),
  -- r"restart\s+(my\s+)?(pc|computer)"
  mk3 (rseq [litP "restart", wsPlus, optR (RE.grp 1 (rseq [litP "my", wsPlus])),
      RE.grp 2 (RE.alt (litP "pc") (litP "computer"))])
    (.lit "sudo shutdown -r now") (.lit "shutdown /r /t 0") (.lit "sudo shutdown -r now"),
  -- r"clear\s+the\s+screen"
  mk3 (rseq [litP "clear", wsPlus, litP "the", wsPlus, litP "screen"])
    (.lit "clear") (.lit "cls") (.lit "clear"),
  -- r"check\s+system\s+info"
  mk3 (rseq [litP "check", wsPlus, litP "system", wsPlus, litP "info"])
    (.lit "system_profiler SPHardwareDataType") (.lit "systeminfo") (.lit "uname -a"),
  -- r"check\s+date\s+and\s+time"
  mk3 (rseq [litP "check", wsPlus, litP "date", wsPlus, litP "and", wsPlus, litP "time"])
    (.lit "date") (.lit "time /t & date /t") (.lit "date"),
  -- r"check\s+cpu\s+usage"
  mk3 (rseq [litP "check", wsPlus, litP "cpu", wsPlus, litP "usage"])
    (.lit "top -l 1 | grep 'CPU usage'") (.lit "wmic cpu get loadpercentage")
    (.lit "top -bn1 | grep 'Cpu(s)'"),
  -- r"check\s+(memory|ram)\s+usage"
  mk3 (rseq [litP "check", wsPlus, RE.grp 1 (RE.alt (litP "memory") (litP "ram")),
      wsPlus, litP "usage"])
    (.lit "vm_stat") (.lit "systeminfo | findstr /C:'Total Physical Memory'") (.lit "free -h"),
  -- r"check\s+(memory|ram)\s+status"
  mk3 (rseq [litP "check", wsPlus, RE.grp 1 (RE.alt (litP "memory") (litP "ram")),
      wsPlus, litP "status"])
    (.lit "vm_stat") (.lit "systeminfo | findstr /C:'Total Physical Memory'") (.lit "free -h"),
  -- r"connect\s+(to\s+)?wifi\s+(\S+)"
  mk3 (rseq [litP "connect", wsPlus, optR (RE.grp 1 (rseq [litP "to", wsPlus])),
      litP "wifi", wsPlus, RE.grp 2 nonWsPlus])
    (.tmpl fun c => "networksetup -setairportnetwork en0 " ++ getG c 2)
    (.tmpl fun c => "netsh wlan connect name=\"" ++ getG c 2 ++ "\"")
    (.tmpl fun c => "nmcli device wifi connect " ++ getG c 2),
  -- r"disconnect\s+(from\s+)?wifi"
  mk3 (rseq [litP "disconnect", wsPlus, optR (RE.grp 1 (rseq [litP "from", wsPlus])),
      litP "wifi"])
    (.lit "networksetup -setairportpower en0 off") (.lit "netsh wlan disconnect")
    (.lit "nmcli device disconnect"),
  -- r"list\s+available\s+wifi\s+networks"
  mk3 (rseq [litP "list", wsPlus, litP "available", wsPlus, litP "wifi", wsPlus,
      litP "networks"])
    (.lit "/System/Library/PrivateFrameworks/Apple80211.framework/Versions/Current/Resources/airport -s")
    (.lit "netsh wlan show networks") (.lit "nmcli device wifi list"),
  -- r"start\s+redis\s+sentinel"
  mk3 (rseq [litP "start", wsPlus, litP "redis", wsPlus, litP "sentinel"])
    (.lit "python -c \"from redis_sentinel_manager import RedisSentinelManager; manager = RedisSentinelManager(); print(manager.start_sentinel())\"")
    (.lit "redis-sentinel sentinel.conf") (.lit "redis-sentinel /etc/redis/sentinel.conf"),
  -- r"start\s+redis\s+server"
  mk3 (rseq [litP "start", wsPlus, litP "redis", wsPlus, litP "server"])
    (.lit "redis-server /Users/lakshmikanthd/Downloads/redis-5.0.7/redis.conf")
    (.lit "redis-server") (.lit "redis-server /etc/redis/redis.conf"),
  -- r"stop\s+redis"
  mk3 (rseq [litP "stop", wsPlus, litP "redis"])
    (.lit "redis-cli shutdown") (.lit "redis-cli shutdown") (.lit "redis-cli shutdown"),
  -- r"restart\s+redis"
  mk3 (rseq [litP "restart", wsPlus, litP "redis"])
    (.lit "redis-cli shutdown") (.lit "redis-cli shutdown") (.lit "redis-cli shutdown"),
  -- r"check\s+redis\s+status"
  mk3 (rseq [litP "check", wsPlus, litP "redis", wsPlus, litP "status"])
    (.lit "redis-cli info server") (.lit "redis-cli info server") (.lit "redis-cli info server"),
  -- r"check\s+redis\s+sentinel\s+status"
  mk3 (rseq [litP "check", wsPlus, litP "redis", wsPlus, litP "sentinel", wsPlus,
      litP "status"])
    (.lit "python -c \"from redis_sentinel_manager import RedisSentinelManager; manager = RedisSentinelManager(); print(manager.get_sentinel_status())\"")
    (.lit "redis-cli -p 26379 info server") (.lit "redis-cli -p 26379 info server"),
  -- r"show.*date"
  mkA (rseq [litP "show", dotStar, litP "date"]) (.lit "date"),
  -- r"show.*me.*date"
  mkA (rseq [litP "show", dotStar, litP "me", dotStar, litP "date"]) (.lit "date"),
  -- r"show.*today.*date"
  mkA (rseq [litP "show", dotStar, litP "today", dotStar, litP "date"]) (.lit "date"),
  -- r"what.*date"
  mkA (rseq [litP "what", dotStar, litP "date"]) (.lit "date"),
  -- r"current.*time"
  mkA (rseq [litP "current", dotStar, litP "time"]) (.lit "date"),
  -- r"what.*time"
  mkA (rseq [litP "what", dotStar, litP "time"]) (.lit "date"),
  -- r"display.*date"
  mkA (rseq [litP "display", dotStar, litP "date"]) (.lit "date"),
  -- r"display.*time"
  mkA (rseq [litP "display", dotStar, litP "time"]) (.lit "date"),
  -- r"today.*date"
  mkA (rseq [litP "today", dotStar, litP "date"]) (.lit "date"),
  -- r"check.*wifi"
  mk3 (rseq [litP "check", dotStar, litP "wifi"])
    (.lit "networksetup -getinfo Wi-Fi") (.lit "netsh wlan show interfaces") (.lit "iwconfig"),
  -- r"wifi.*status"
  mk3 (rseq [litP "wifi", dotStar, litP "status"])
    (.lit "networksetup -getinfo Wi-Fi") (.lit "netsh wlan show interfaces") (.lit "iwconfig"),
  -- r"network.*status"
  mk3 (rseq [litP "network", dotStar, litP "status"])
    (.lit "ifconfig") (.lit "ipconfig") (.lit "ip addr"),
  -- r"disk.*space"
  mk3 (rseq [litP "disk", dotStar, litP "space"])
    (.lit "df -h") (.lit "wmic logicaldisk get size,freespace,caption") (.lit "df -h"),
  -- r"memory.*usage"
  mk3 (rseq [litP "memory", dotStar, litP "usage"])
    (.lit "top -l 1 | head -n 10") (.lit "wmic OS get TotalVisibleMemorySize,FreePhysicalMemory")
    (.lit "free -h"),
  -- r"cpu.*usage"
  mk3 (rseq [litP "cpu", dotStar, litP "usage"])
    (.lit "top -l 1 | grep 'CPU usage'") (.lit "wmic cpu get loadpercentage")
    (.lit "top -bn1 | grep 'Cpu(s)'"),
  -- r"list.*files"
  mkA (rseq [litP "list", dotStar, litP "files"]) (.lit "ls -la"),
  -- r"show.*files"
  mkA (rseq [litP "show", dotStar, litP "files"]) (.lit "ls -la"),
  -- r"current.*directory"
  mkA (rseq [litP "current", dotStar, litP "directory"]) (.lit "pwd"),
  -- r"where.*am.*i"
  mkA (rseq [litP "where", dotStar, litP "am", dotStar, litP "i"]) (.lit "pwd"),
  -- r"list.*processes"
  mkA (rseq [litP "list", dotStar, litP "processes"]) (.lit "ps aux"),
  -- r"show.*processes"
  mkA (rseq [litP "show", dotStar, litP "processes"]) (.lit "ps aux"),
  -- r"kill.*process.*(\d+)"
  mkA (rseq [litP "kill", dotStar, litP "process", dotStar,
      RE.grp 1 (RE.seq digitP (RE.star digitP))])
    (.tmpl fun c => "kill -9 " ++ getG c 1),
  -- r"restart.*computer"
  mk3 (rseq [litP "restart", dotStar, litP "computer"])
    (.lit "sudo shutdown -r now") (.lit "shutdown /r /t 0") (.lit "sudo reboot"),
  -- r"shutdown.*computer"
  mk3 (rseq [litP "shutdown", dotStar, litP "computer"])
    (.lit "sudo shutdown -h now") (.lit "shutdown /s /t 0") (.lit "sudo shutdown -h now"),
  -- r"sleep.*computer"
  mk3 (rseq [litP "sleep", dotStar, litP "computer"])
    (.lit "pmset sleepnow")
    (.lit "powercfg /hibernate off && rundll32.exe powrprof.dll,SetSuspendState 0,1,0")
    (.lit "systemctl suspend"),
  -- r"list.*all.*commands"
  mkA (rseq [litP "list", dotStar, litP "all", dotStar, litP "commands"])
    (.lit "python -c \"from command_mapper import CommandMapper; mapper = CommandMapper(); categories = mapper.get_commands_by_category(); print('Available Commands by Category:'); [print(f'\\n\x7bcat\x7d:\\n' + '\\n'.join([f'  • \x7bcmd.get(\\\"example\\\", \\\"Try the command\\\")\x7d' for cmd in cmds])) for cat, cmds in categories.items()]\""),
  -- r"show.*all.*commands"
  mkA (rseq [litP "show", dotStar, litP "all", dotStar, litP "commands"])
    (.lit "python -c \"from command_mapper import CommandMapper; mapper = CommandMapper(); categories = mapper.get_commands_by_category(); print('Available Commands by Category:'); [print(f'\\n\x7bcat\x7d:\\n' + '\\n'.join([f'  • \x7bcmd.get(\\\"example\\\", \\\"Try the command\\\")\x7d' for cmd in cmds])) for cat, cmds in categories.items()]\""),
  -- r"help.*commands"
  mkA (rseq [litP "help", dotStar, litP "commands"])
    (.lit "python -c \"from command_mapper import CommandMapper; mapper = CommandMapper(); categories = mapper.get_commands_by_category(); print('Available Commands by Category:'); [print(f'\\n\x7bcat\x7d:\\n' + '\\n'.join([f'  • \x7bcmd.get(\\\"example\\\", \\\"Try the command\\\")\x7d' for cmd in cmds])) for cat, cmds in categories.items()]\""),
  -- r"list.*redis.*commands"
  mkA (rseq [litP "list", dotStar, litP "redis", dotStar, litP "commands"])
    (.lit "python -c \"from command_mapper import CommandMapper; mapper = CommandMapper(); redis_commands = [cmd for cat, cmds in mapper.get_commands_by_category().items() if 'redis' in cat.lower() for cmd in cmds]; print('Redis Commands:'); [print(f'  • \x7bcmd.get(\\\"example\\\", \\\"Try the command\\\")\x7d') for cmd in redis_commands]\""),
  -- r"show.*redis.*commands"
  mkA (rseq [litP "show", dotStar, litP "redis", dotStar, litP "commands"])
    (.lit "python -c \"from command_mapper import CommandMapper; mapper = CommandMapper(); redis_commands = [cmd for cat, cmds in mapper.get_commands_by_category().items() if 'redis' in cat.lower() for cmd in cmds]; print('Redis Commands:'); [print(f'  • \x7bcmd.get(\\\"example\\\", \\\"Try the command\\\")\x7d') for cmd in redis_commands]\""),
  -- r"start.*zookeeper"
  mk3 (rseq [litP "start", dotStar, litP "zookeeper"])
    (.lit "cd ~/Downloads/kafka_2.12-3.9.1 && bin/zookeeper-server-start.sh config/zookeeper.properties")
    (.lit "cd %USERPROFILE%\\Downloads\\kafka_2.12-3.9.1 && bin\\zookeeper-server-start.bat config\\zookeeper.properties")
    (.lit "cd ~/Downloads/kafka_2.12-3.9.1 && bin/zookeeper-server-start.sh config/zookeeper.properties"),
  -- r"start.*kafka"
  mk3 (rseq [litP "start", dotStar, litP "kafka"])
    (.lit "cd ~/Downloads/kafka_2.12-3.9.1 && bin/kafka-server-start.sh config/server.properties")
    (.lit "cd %USERPROFILE%\\Downloads\\kafka_2.12-3.9.1 && bin\\kafka-server-start.bat config\\server.properties")
    (.lit "cd ~/Downloads/kafka_2.12-3.9.1 && bin/kafka-server-start.sh config/server.properties"),
  -- r"list.*kafka.*topics"
  mkA (rseq [litP "list", dotStar, litP "kafka", dotStar, litP "topics"])
    (.lit "kafka-topics --list --bootstrap-server localhost:9092"),
  -- r"show.*kafka.*topics"
  mkA (rseq [litP "show", dotStar, litP "kafka", dotStar, litP "topics"])
    (.lit "kafka-topics --list --bootstrap-server localhost:9092"),
  -- r"delete.*kafka.*topic.*(\S+)"
  mkA (rseq [litP "delete", dotStar, litP "kafka", dotStar, litP "topic", dotStar,
      RE.grp 1 nonWsPlus])
    (.tmpl fun c => "kafka-topics --bootstrap-server localhost:9092 --delete --topic " ++ getG c 1),
  -- r"delete.*topic.*(\S+)"
  mkA (rseq [litP "delete", dotStar, litP "topic", dotStar, RE.grp 1 nonWsPlus])
    (.tmpl fun c => "kafka-topics --bootstrap-server localhost:9092 --delete --topic " ++ getG c 1)
]

/-- `mapping.get(self.system, mapping.get("all"))`. -/
def resolveCmd (sys : String) (r : Rule) : Option CmdSpec :=
  match (if sys = "darwin" then r.dar else if sys = "windows" then r.win
         else if sys = "linux" then r.lin else none) with
  | some c => some c
  | none => r.allp

/-- One iteration of the `_fallback_map_command` loop: the command this rule
produces for `input`, if its pattern matches and a truthy platform value
resolves (a callable is applied to the match, a nonempty literal is
returned, anything else falls through to the next rule). -/
def ruleFire (sys : String) (input : List Char) (r : Rule) : Option String :=
  match research r.pat input with
  | none => none
  | some caps =>
    match resolveCmd sys r with
    | none => none
    | some (.tmpl f) => some (f caps)
    | some (.lit c) => if c = "" then none else some c

/-- The `_fallback_map_command` scan: first rule that fires wins. -/
def scanRules (sys : String) (input : List Char) : List Rule → Option String
  | [] => none
  | r :: rs =>
    match ruleFire sys input r with
    | some c => some c
    | none => scanRules sys input rs

/-- `user_input.strip().lower()` as applied by `map_to_command`. -/
def normalize_input (s : String) : String := ⟨(pyStripL s.data).map lowerChar⟩

/-- `CommandMapper.map_to_command` with no AI backend configured
(`use_ai = False`, so `_ai_map_command` is skipped and only the fallback
table is consulted), parametrised by the `platform.system().lower()`
string. -/
def map_to_command (sys : String) (s : String) : Option String :=
  scanRules sys (normalize_input s).data fallback_patterns

/-- `CommandMapper.map_to_command_with_correction` with no AI backend:
exact mapping first, then token-level spelling correction and a retry,
returning `(command?, original normalized input, applied correction?)`. -/
def map_to_command_with_correction (sys : String) (s : String) :
    Option String × String × Option String :=
  let u := normalize_input s
  match map_to_command sys u with
  | some c => (some c, u, none)
  | none =>
    match correct_spelling u with
    | some ci =>
      if ci ≠ "" ∧ ci ≠ u then
        match map_to_command sys ci with
        | some cc => (some cc, u, some ci)
        | none => (none, u, none)
      else (none, u, none)
    | none => (none, u, none)

/-! ### The AI-candidate safety filter (CommandMapper._is_safe_command) -/

/-- The fixed destructive-pattern signatures of `_is_safe_command`. -/
def dangerous_patterns : List RE := [
  rseq [litP "rm", wsPlus, litP "-rf", wsPlus, RE.ch '/'],
  rseq [litP "dd", wsPlus, litP "if=/dev/zero"],
  rseq [litP ":()", RE.ch '\x7b', wsStar, litP ":|:", wsStar, RE.ch '&', wsStar,
    RE.ch '\x7d', litP ";:"],
  litP "mkfs.",
  litP "fdisk",
  litP "parted",
  rseq [litP "sudo", wsPlus, litP "rm", wsPlus, litP "-rf"],
  rseq [litP "sudo", wsPlus, litP "dd"],
  rseq [litP "sudo", wsPlus, litP "mkfs"],
  rseq [litP "sudo", wsPlus, litP "fdisk"],
  rseq [litP "sudo", wsPlus, litP "parted"]
]

/-- `CommandMapper._is_safe_command`: a candidate is safe iff no destructive
pattern matches anywhere in it (case-insensitively). -/
def is_safe_command (command : String) : Bool :=
  dangerous_patterns.all fun p => (research p command.data).isNone

/-- The validation applied by `_ai_map_command` to the text returned by the
AI backend: strip it, then accept it only if it passes the safety check
(an unsafe candidate yields no command at all). -/
def ai_validate (content : String) : Option String :=
  let command : String := ⟨pyStripL content.data⟩
  if is_safe_command command then some command else none

/-! ### The executor (executor.py)

`subprocess.run` itself is outside the embedding; `execute` is parametrised
by a `SpawnOutcome` describing how the (hypothetical) spawned process ended:
completion with an exit code and captured streams, expiry of the 30-second
timeout, or any other invocation error. The wall-clock timestamp and elapsed
time are likewise parameters. Elapsed times are carried as exact rationals;
the executor never computes with them. -/

/-- `ExecutionResult` of executor.py (field defaults `output=None`,
`error=None`, `exit_code=0`, `execution_time=0.0`). -/
structure ExecutionResult where
  success : Bool
  output : Option String
  error : Option String
  exit_code : Int
  execution_time : ℚ
deriving DecidableEq

/-- One persisted history record as built by `_save_to_history` (only the
lengths of output/error are stored, not their content). -/
structure HistoryEntry where
  timestamp : String
  original_input : String
  command : String
  success : Bool
  exit_code : Int
  execution_time : ℚ
  output_length : Nat
  error_length : Nat
deriving DecidableEq

/-- How the spawned subprocess ended, had one been spawned. -/
inductive SpawnOutcome where
  | completed : Int → String → String → SpawnOutcome
  | timedOut : SpawnOutcome
  | failed : String → SpawnOutcome
deriving DecidableEq

/-- The fixed dangerous-command substring list of `CommandExecutor`. -/
def dangerous_commands : List String := [
  "rm -rf",
  "sudo rm",
  "sudo shutdown",
  "sudo reboot",
  "sudo halt",
  "sudo poweroff",
  "sudo kill",
  "sudo dd",
  "sudo mkfs",
  "sudo fdisk",
  "sudo parted",
  "sudo chmod 777",
  "sudo chown root",
  "sudo passwd",
  "sudo useradd",
  "sudo userdel",
  "sudo groupadd",
  "sudo groupdel"
]

/-- `CommandExecutor._is_dangerous_command`: case-insensitive substring
containment of any fixed dangerous command. -/
def is_dangerous_command (command : String) : Bool :=
  dangerous_commands.any fun d =>
    containsSub (d.data.map lowerChar) (command.data.map lowerChar)

/-- The entry appended by `_save_to_history`. -/
def mkHistoryEntry (now orig cmd : String) (r : ExecutionResult) : HistoryEntry :=
  ⟨now, orig, cmd, r.success, r.exit_code, r.execution_time,
   (match r.output with | some o => o.data.length | none => 0),
   (match r.error with | some e => e.data.length | none => 0)⟩

/-- `CommandExecutor._save_to_history`: append, then keep only the last 100
entries (`self.history[-100:]`); the persisted file receives the same
truncated list. -/
def save_to_history (history : List HistoryEntry) (e : HistoryEntry) : List HistoryEntry :=
  let h := history ++ [e]
  if h.length > 100 then h.drop (h.length - 100) else h

def danger_message : String :=
  "This command requires additional confirmation due to safety concerns."

def timeout_message : String := "Command execution timed out after 30 seconds."

/-- `str.strip()` on a `String`. -/
def strTrim (s : String) : String := ⟨pyStripL s.data⟩

/-- `CommandExecutor.execute`: the dangerous-command pre-check short-circuits
before any subprocess interaction; a completed run builds the result from the
exit code and the truthiness-guarded stripped streams and appends it to the
history; timeout and other invocation errors build failure results and do
not touch the history. Returns the result together with the new history. -/
def execute (cmd orig now : String) (outcome : SpawnOutcome) (elapsed : ℚ)
    (history : List HistoryEntry) : ExecutionResult × List HistoryEntry :=
  if is_dangerous_command cmd then
    (⟨false, none, some danger_message, 0, 0⟩, history)
  else
    match outcome with
    | .completed rc out err =>
      let r : ExecutionResult :=
        ⟨rc == 0,
         if out = "" then none else some (strTrim out),
         if err = "" then none else some (strTrim err),
         rc, elapsed⟩
      (r, save_to_history history (mkHistoryEntry now orig cmd r))
    | .timedOut => (⟨false, none, some timeout_message, 0, 0⟩, history)
    | .failed m => (⟨false, none, some ("Execution error: " ++ m), 0, 0⟩, history)

/-- The record returned by `CommandExecutor.get_statistics`. -/
structure Stats where
  total_commands : Nat
  successful_commands : Nat
  failed_commands : Nat
  success_rate : ℚ
  average_execution_time : ℚ
deriving DecidableEq

/-- `CommandExecutor.get_statistics`: all-zero record for an empty history,
otherwise a full scan with the divisions by the (then nonzero) history
length. -/
def get_statistics (history : List HistoryEntry) : Stats :=
  if history.isEmpty then ⟨0, 0, 0, 0, 0⟩
  else
    let total := history.length
    let successful := (history.filter fun e => e.success).length
    let failed := total - successful
    let avg := ((history.map fun e => e.execution_time).sum) / (total : ℚ)
    ⟨total, successful, failed, ((successful : ℚ) / (total : ℚ)) * 100, avg⟩

/-! ### Helper lemmas -/

/-- The `_fallback_map_command` scan returns the value of the rule at index
`i` whenever that rule fires and no earlier rule fires. -/
theorem scan_rules_first (sys : String) (input : List Char) :
    ∀ (rs : List Rule) (i : Nat) (hi : i < rs.length) (c : String),
      (∀ r ∈ rs.take i, ruleFire sys input r = none) →
      ruleFire sys input (rs.get ⟨i, hi⟩) = some c →
      scanRules sys input rs = some c := by
  intro rs
  induction rs with
  | nil => intro i hi c _ _; exact absurd hi (by simp)
  | cons r rs ih =>
    intro i hi c hpre hfire
    cases i with
    | zero =>
      simp only [List.get] at hfire
      simp [scanRules, hfire]
    | succ n =>
      have hr : ruleFire sys input r = none := by
        apply hpre
        simp [List.take_succ_cons]
      simp only [List.get] at hfire
      simp only [scanRules, hr]
      exact ih n (Nat.lt_of_succ_lt_succ hi) c
        (fun r' hr' => hpre r' (by simp [List.take_succ_cons, hr'])) hfire

/-- One write never leaves more than 100 entries. -/
theorem save_to_history_length_le (h : List HistoryEntry) (e : HistoryEntry) :
    (save_to_history h e).length ≤ 100 := by
  simp only [save_to_history]
  split
  · rename_i hgt
    simp only [List.length_drop]
    omega
  · rename_i hle
    simp only [List.length_append, List.length_singleton] at hle ⊢
    omega

/-- Replaying any entry sequence through `_save_to_history` from an empty
history keeps exactly the last 100 entries. -/
theorem foldl_save_drop (es : List HistoryEntry) :
    List.foldl save_to_history [] es = es.drop (es.length - 100) := by
  induction es using List.reverseRecOn with
  | nil => simp
  | append_singleton es e ih =>
    rw [List.foldl_append, ih]
    simp only [List.foldl]
    rcases Nat.lt_or_ge es.length 100 with hlt | hge
    · have h0 : es.length - 100 = 0 := by omega
      have h1 : (es ++ [e]).length - 100 = 0 := by
        simp only [List.length_append, List.length_singleton]; omega
      rw [h0, h1, List.drop_zero, List.drop_zero]
      simp only [save_to_history]
      split
      · rename_i hgt
        simp only [List.length_append, List.length_singleton] at hgt
        omega
      · rfl
    · have hplen : (es.drop (es.length - 100)).length = 100 := by
        simp only [List.length_drop]; omega
      simp only [save_to_history]
      split
      · rename_i hgt
        have h1 : (es.drop (es.length - 100) ++ [e]).length - 100 = 1 := by
          simp only [List.length_append, List.length_singleton, hplen]
        rw [h1]
        rw [List.drop_append_of_le_length (by rw [hplen]; omega)]
        rw [List.drop_drop]
        rw [List.drop_append_of_le_length
          (by simp only [List.length_append, List.length_singleton]; omega)]
        have h2 : (es ++ [e]).length - 100 = es.length - 100 + 1 := by
          simp only [List.length_append, List.length_singleton]; omega
        rw [h2]
      · rename_i hle
        simp only [List.length_append, List.length_singleton, hplen] at hle
        omega

/-- A concrete history entry used by witnesses. -/
def sampleEntry : HistoryEntry := ⟨"t0", "show files", "ls -la", true, 0, 0, 0, 0⟩

/-! ### The claims -/

/-- C1, as stated, fails: on the input "list port 8085 files processes" the
rules `list.*files` (index 61) and `list.*processes` (index 65) both match,
with `list.*files` declared first, yet the mapper returns the resolution of
the even earlier matching port rule at index 0, not "ls -la". -/
theorem C1_order_counterexample :
    61 < 65 ∧
    ruleFire "linux" (normalize_input "list port 8085 files processes").data
      (fallback_patterns.get ⟨61, by decide⟩) = some "ls -la" ∧
    ruleFire "linux" (normalize_input "list port 8085 files processes").data
      (fallback_patterns.get ⟨65, by decide⟩) = some "ps aux" ∧
    map_to_command "linux" "list port 8085 files processes" = some "lsof -i tcp:8085" ∧
    ("lsof -i tcp:8085" : String) ≠ "ls -la" := by
  refine ⟨by decide, by decide, by decide, by decide, by decide⟩

/-- C1 (amended): for every input and every two rules R1 (index `i`) and R2
(index `j`) of the fallback table with R1 declared before R2, if both rules
fire on the normalized input and no rule declared before R1 fires, then the
mapper with AI disabled returns R1's platform-resolved command: the lookup
scans the table in fixed declaration order and returns the first firing
rule's resolution. -/
theorem C1_first_matching_rule (u : String) (i j : Nat)
    (hi : i < fallback_patterns.length) (hj : j < fallback_patterns.length)
    (hij : i < j) (c cj : String)
    (hRi : ruleFire "linux" (normalize_input u).data (fallback_patterns.get ⟨i, hi⟩) = some c)
    (hRj : ruleFire "linux" (normalize_input u).data (fallback_patterns.get ⟨j, hj⟩) = some cj)
    (hfirst : ∀ r ∈ fallback_patterns.take i,
      ruleFire "linux" (normalize_input u).data r = none) :
    map_to_command "linux" u = some c := by
  unfold map_to_command
  exact scan_rules_first "linux" (normalize_input u).data fallback_patterns i hi c hfirst hRi

/-- Witness for C1: "restart my computer" fires rule 30
(`restart\s+(my\s+)?(pc|computer)`, resolving to "sudo shutdown -r now" on
linux) and rule 68 (`restart.*computer`, resolving to "sudo reboot"), no
earlier rule fires, and the mapper returns rule 30's resolution. -/
theorem C1_first_matching_rule_witness :
    map_to_command "linux" "restart my computer" = some "sudo shutdown -r now" :=
  C1_first_matching_rule "restart my computer" 30 68 (by decide) (by decide) (by decide)
    "sudo shutdown -r now" "sudo reboot" (by decide) (by decide) (by decide)

/-- C2, as stated, fails: a timed-out execution returns success=false with
the timeout-specific message but appends nothing to the history (the
`subprocess.TimeoutExpired` handler returns before `_save_to_history`). -/
theorem C2_timeout_no_history_counterexample :
    (execute "sleep 100" "wait" "t0" SpawnOutcome.timedOut 31 []).1.success = false ∧
    (execute "sleep 100" "wait" "t0" SpawnOutcome.timedOut 31 []).1.error =
      some timeout_message ∧
    (execute "sleep 100" "wait" "t0" SpawnOutcome.timedOut 31 []).2 = [] := by
  refine ⟨by decide, by decide, by decide⟩

/-- C2 (amended): for a non-dangerous command, an invocation that completes
(with any exit code) appends exactly one entry through the bounded
`_save_to_history`; a timed-out invocation returns success=false with the
timeout-specific message and leaves the history unchanged, as does any
other invocation error. -/
theorem C2_history_exactly_on_completion (cmd orig now : String) (rc : Int)
    (out err errm : String) (t : ℚ) (h : List HistoryEntry)
    (hsafe : is_dangerous_command cmd = false) :
    (execute cmd orig now (.completed rc out err) t h).2 =
      save_to_history h
        (mkHistoryEntry now orig cmd (execute cmd orig now (.completed rc out err) t h).1) ∧
    (execute cmd orig now .timedOut t h).2 = h ∧
    (execute cmd orig now .timedOut t h).1.success = false ∧
    (execute cmd orig now .timedOut t h).1.error = some timeout_message ∧
    (execute cmd orig now (.failed errm) t h).2 = h := by
  simp [execute, hsafe]

theorem C2_history_exactly_on_completion_witness :
    (execute "echo hi" "say hi" "t0" SpawnOutcome.timedOut 0 []).1.success = false :=
  (C2_history_exactly_on_completion "echo hi" "say hi" "t0" 0 "hi\n" "" "boom" 0 []
    (by decide)).2.2.1

/-- C3: every command containing (case-insensitively, as a substring) an
entry of the fixed dangerous-command list is refused up front: `execute`
returns success=false with the fixed confirmation message, independently of
any subprocess outcome (none is spawned), and the history is untouched. -/
theorem C3_dangerous_short_circuit (cmd orig now : String) (outcome : SpawnOutcome)
    (t : ℚ) (h : List HistoryEntry)
    (hd : is_dangerous_command cmd = true) :
    execute cmd orig now outcome t h = (⟨false, none, some danger_message, 0, 0⟩, h) := by
  simp [execute, hd]

theorem C3_dangerous_short_circuit_witness :
    execute "sudo shutdown -h now" "shutdown my computer" "t0"
      (SpawnOutcome.completed 0 "" "") 3 [] =
      (⟨false, none, some danger_message, 0, 0⟩, []) :=
  C3_dangerous_short_circuit "sudo shutdown -h now" "shutdown my computer" "t0"
    (SpawnOutcome.completed 0 "" "") 3 [] (by decide)

/-- C4: with AI disabled and correction enabled, "opne chrme" is corrected
token-by-token to "open chrome" (each token's best candidate exceeding the
0.8 similarity threshold), the mapper returns the same linux Chrome-launch
command "google-chrome" as the direct input "open chrome" does, and the
corrected string is surfaced in the returned tuple. -/
theorem C4_misspelling_corrected :
    map_to_command_with_correction "linux" "opne chrme" =
      (some "google-chrome", "opne chrme", some "open chrome") ∧
    map_to_command "linux" "open chrome" = some "google-chrome" := by
  refine ⟨by decide, by decide⟩

/-- C5, as stated, fails: "open  chrome" (two spaces) consists solely of
canonical keywords, yet the correction pass returns the whitespace-collapsed
"open chrome" instead of reporting no correction, because tokens are
rejoined with single spaces before the no-op comparison. -/
theorem C5_whitespace_counterexample :
    (∀ w ∈ pySplitL ("open  chrome" : String).data, isCanonicalTok w = true) ∧
    correct_spelling "open  chrome" = some "open chrome" := by
  refine ⟨by decide, by decide⟩

/-- C5 (amended): for every input all of whose whitespace-delimited tokens
are canonical keywords and which is already in single-space-joined form,
the spelling-correction pass reports no correction (correction is idempotent
on canonical, whitespace-normalized input). -/
theorem C5_canonical_no_correction (s : String)
    (htok : ∀ w ∈ pySplitL s.data, isCanonicalTok w = true)
    (hnorm : joinSpace (pySplitL s.data) = s.data) :
    correct_spelling s = none := by
  unfold correct_spelling
  have hmap : (pySplitL s.data).map correct_word = pySplitL s.data := by
    have h1 : (pySplitL s.data).map correct_word = (pySplitL s.data).map id :=
      List.map_congr_left fun w hw => by
        have hc := htok w hw
        simp [correct_word, hc]
    rw [h1, List.map_id]
  rw [hmap, hnorm]
  simp

theorem C5_canonical_no_correction_witness :
    correct_spelling "open chrome" = none :=
  C5_canonical_no_correction "open chrome" (by decide) (by decide)

/-- C6, as stated, fails: a completed invocation whose raw stdout is
whitespace-only produces `output = some ""` (the truthiness pre-check sees a
nonempty raw stream, then stripping empties it), not `none` as the claim
demands for every empty trimmed text. -/
theorem C6_whitespace_output_counterexample :
    (execute "echo" "" "t0" (SpawnOutcome.completed 0 "   " "") 0 []).1.output = some "" ∧
    (some "" : Option String) ≠ none := by
  refine ⟨by decide, by decide⟩

/-- C6 (amended): for every completed, non-blocked invocation, success
equals exit-code-equality-to-zero, the exit code and elapsed time are
recorded, and each of output/error is `none` exactly when the raw captured
stream is empty, and otherwise the stream trimmed of surrounding whitespace
(which is the empty string, not `none`, when the raw stream was
whitespace-only). -/
theorem C6_completion_result_fields (cmd orig now : String) (rc : Int) (out err : String)
    (t : ℚ) (h : List HistoryEntry) (hsafe : is_dangerous_command cmd = false) :
    ((execute cmd orig now (.completed rc out err) t h).1.success = true ↔ rc = 0) ∧
    (execute cmd orig now (.completed rc out err) t h).1.exit_code = rc ∧
    (execute cmd orig now (.completed rc out err) t h).1.execution_time = t ∧
    (out = "" → (execute cmd orig now (.completed rc out err) t h).1.output = none) ∧
    (out ≠ "" →
      (execute cmd orig now (.completed rc out err) t h).1.output = some (strTrim out)) ∧
    (err = "" → (execute cmd orig now (.completed rc out err) t h).1.error = none) ∧
    (err ≠ "" →
      (execute cmd orig now (.completed rc out err) t h).1.error = some (strTrim err)) := by
  refine ⟨?_, ?_, ?_, ?_, ?_, ?_, ?_⟩
  · simp [execute, hsafe]
  · simp [execute, hsafe]
  · simp [execute, hsafe]
  · intro h0; simp [execute, hsafe, h0]
  · intro h0; simp [execute, hsafe, h0]
  · intro h0; simp [execute, hsafe, h0]
  · intro h0; simp [execute, hsafe, h0]

theorem C6_completion_result_fields_witness :
    (execute "echo hi" "say hi" "t0" (SpawnOutcome.completed 0 "hi\n" "") 0 []).1.output =
      some (strTrim "hi\n") :=
  (C6_completion_result_fields "echo hi" "say hi" "t0" 0 "hi\n" "" 0 [] (by decide)).2.2.2.2.1
    (by decide)

/-- C7: the Mapper's safety check rejects "sudo rm -rf /" and accepts
"ls -la"; it is wired only into the AI path: whatever the fallback scan
resolves is returned by the AI-disabled mapper as is (no safety filtering),
while an AI candidate is returned iff it passes the safety check. -/
theorem C7_safety_filter_scope :
    is_safe_command "sudo rm -rf /" = false ∧
    is_safe_command "ls -la" = true ∧
    (∀ u c, scanRules "linux" (normalize_input u).data fallback_patterns = some c →
      map_to_command "linux" u = some c) ∧
    (∀ resp, is_safe_command (strTrim resp) = false → ai_validate resp = none) ∧
    (∀ resp, is_safe_command (strTrim resp) = true →
      ai_validate resp = some (strTrim resp)) := by
  refine ⟨by decide, by decide, ?_, ?_, ?_⟩
  · intro u c hc; exact hc
  · intro resp hr
    simp only [ai_validate, strTrim] at hr ⊢
    simp [hr]
  · intro resp hr
    simp only [ai_validate, strTrim] at hr ⊢
    simp [hr]

theorem C7_safety_filter_scope_witness :
    map_to_command "linux" "list files" = some "ls -la" ∧
    ai_validate "sudo rm -rf /" = none :=
  ⟨C7_safety_filter_scope.2.2.1 "list files" "ls -la" (by decide),
   C7_safety_filter_scope.2.2.2.1 "sudo rm -rf /" (by decide)⟩

/-- C8: with AI disabled, "kill port 8085" resolves through the fallback
table's port-kill rule (an "all"-platform template with the captured port
substituted) to exactly "kill -9 $(lsof -t -i tcp:8085)". -/
theorem C8_kill_port_8085 :
    map_to_command "linux" "kill port 8085" = some "kill -9 $(lsof -t -i tcp:8085)" := by
  decide

/-- C9: the history log is bounded at capacity 100 with FIFO eviction:
every write leaves at most 100 entries, and replaying 105 appends from an
empty history keeps exactly the last 100 appended entries in order, the 5
oldest evicted. -/
theorem C9_history_capacity :
    (∀ (h : List HistoryEntry) (e : HistoryEntry), (save_to_history h e).length ≤ 100) ∧
    (∀ es : List HistoryEntry, es.length = 105 →
      List.foldl save_to_history [] es = es.drop 5 ∧
      (List.foldl save_to_history [] es).length = 100) := by
  constructor
  · exact save_to_history_length_le
  · intro es h105
    have hd := foldl_save_drop es
    rw [h105] at hd
    norm_num at hd
    refine ⟨hd, ?_⟩
    rw [hd]
    simp [List.length_drop, h105]

theorem C9_history_capacity_witness :
    List.foldl save_to_history [] (List.replicate 105 sampleEntry) =
      (List.replicate 105 sampleEntry).drop 5 :=
  (C9_history_capacity.2 (List.replicate 105 sampleEntry) (by simp)).1

/-- C10: statistics on an empty history are the all-zero record, produced
by the division-free branch; in the non-empty branch the divisor is the
history length, which is then provably positive. -/
theorem C10_stats_empty_guard :
    get_statistics [] = ⟨0, 0, 0, 0, 0⟩ ∧
    (∀ h : List HistoryEntry, h ≠ [] →
      (get_statistics h).total_commands = h.length ∧ 0 < h.length) := by
  constructor
  · rfl
  · intro h hne
    have hemp : h.isEmpty = false := by
      cases h with
      | nil => exact absurd rfl hne
      | cons a t => rfl
    refine ⟨by simp [get_statistics, hemp], List.length_pos.mpr hne⟩

theorem C10_stats_empty_guard_witness :
    (get_statistics [sampleEntry]).total_commands = 1 ∧ 0 < 1 :=
  C10_stats_empty_guard.2 [sampleEntry] (by simp)

end AICmd
